import Mathlib

/-!
Verification development for the `homeassistant-evcnet` integration.

Shallow embedding of the core of the integration:
* the status-bitfield parsing of `custom_components/evcnet/switch.py`
  together with the flag constants of `custom_components/evcnet/const.py`,
* the session authenticator and the AJAX request engine of
  `custom_components/evcnet/api.py`,
* the polling coordinator of `custom_components/evcnet/coordinator.py`.

Stateful Python code is embedded as explicit state passing; the network is
an explicit environment of responses; fallible code returns `Except` or
`Option`, where the error value plays the role of a raised exception.
-/

namespace EvcNet

/-! ## Status flag constants (const.py, CHARGESPOT_STATUS1_FLAGS and
CHARGESPOT_STATUS2_FLAGS) -/

/-- const.py: CHARGESPOT_STATUS1_FLAGS["NO_COMMUNICATION"]. -/
def NO_COMMUNICATION : Nat := 0x30000000

/-- const.py: CHARGESPOT_STATUS1_FLAGS["FAULT"]. -/
def STATUS1_FAULT : Nat := 0x4000002F

/-- const.py: CHARGESPOT_STATUS2_FLAGS["BLOCKED"]. -/
def BLOCKED : Nat := 0x20000

/-- const.py: CHARGESPOT_STATUS2_FLAGS["OCCUPIED"]. -/
def OCCUPIED : Nat := 0x10000

/-- const.py: CHARGESPOT_STATUS2_FLAGS["FULL"]. -/
def FULL : Nat := 0x40000

/-- const.py: CHARGESPOT_STATUS2_FLAGS["RESERVED"]. -/
def RESERVED : Nat := 0x400

/-- const.py: CHARGESPOT_STATUS2_FLAGS["FAULT"]. -/
def STATUS2_FAULT : Nat := 0xD8407940

/-! ## Decimal digit strings.

Python `str(status_value)` produces the decimal digit string of a
nonnegative integer.  We model that string as the list of its digit
values (most significant first).  The recursion mirrors the structure of
the Lean core function `Nat.toDigitsCore` (and of any standard
division-based digit extraction): the fuel argument `n + 1` strictly
bounds the number of divisions by 10 that are needed. -/

/-- Fuel-driven digit extraction: prepends the decimal digits of `n` to
`ds`, most significant first. -/
def decDigitsCore : Nat → Nat → List Nat → List Nat
  | 0, _, ds => ds
  | fuel + 1, n, ds =>
    let d := n % 10
    let n2 := n / 10
    if n2 = 0 then d :: ds else decDigitsCore fuel n2 (d :: ds)

/-- Digit values of Python `str(n)` for a nonnegative integer `n`, most
significant first.  `decDigits 0 = [0]`, matching `str(0) = "0"`. -/
def decDigits (n : Nat) : List Nat := decDigitsCore (n + 1) n []

/-- Python `s.zfill(w)` on a digit string: left-pad with zeros to width
`w` (no effect when the string is already at least that long). -/
def zfill (w : Nat) (ds : List Nat) : List Nat :=
  List.replicate (w - ds.length) 0 ++ ds

/-- Python `int(s, 16)` on a digit-value string: fails (raises
`ValueError`, modelled as `none`) on an empty string or on a character
that is not a hexadecimal digit (digit value at least 16); otherwise
returns the base-16 value of the digits. -/
def int16 (ds : List Nat) : Option Nat :=
  if ds.isEmpty then Option.none
  else if ds.any (fun d => 16 ≤ d) then Option.none
  else Option.some (ds.foldl (fun a d => 16 * a + d) 0)

/-! ## switch.py: EvcNetChargingSwitch status parsing -/

/-- switch.py, `_parse_status_flags`: the textual decimal form of the
status value is zero-padded to 16 characters and the two halves are
parsed as hexadecimal; `none` models a raised `ValueError`.
`hex_status[0:8]` is the first 8 characters and `hex_status[8:]` is all
remaining characters (more than 8 of them when the value has more than
16 decimal digits). -/
def parse_status_flags (status_value : Nat) : Option (Nat × Nat) :=
  let hex_status := zfill 16 (decDigits status_value)
  match int16 (hex_status.take 8), int16 (hex_status.drop 8) with
  | Option.some status1, Option.some status2 => Option.some (status1, status2)
  | _, _ => Option.none

/-- switch.py, `_has_error_conditions`: no-communication, blocked, then
fault conditions, in the order of the source. -/
def has_error_conditions (status1 status2 : Nat) : Bool :=
  if status1 &&& NO_COMMUNICATION != 0 then true
  else if status2 &&& BLOCKED != 0 then true
  else if (status1 &&& STATUS1_FAULT != 0) || (status2 &&& STATUS2_FAULT != 0) then true
  else false

/-- switch.py, `_is_charging_active`: the OCCUPIED bit of status2. -/
def is_charging_active (status2 : Nat) : Bool :=
  status2 &&& OCCUPIED != 0

/-- switch.py, `is_on` (lines 156-163): once the two status words are
parsed, error conditions force the switch off, otherwise the operational
OCCUPIED bit decides. -/
def is_on_from_flags (status1 status2 : Nat) : Bool :=
  if has_error_conditions status1 status2 then false
  else is_charging_active status2

/-! ## api.py: EvcNetApiClient

The mutable session state of the client is the record `ClientState`; the
fields mirror `_is_authenticated`, `_phpsessid`, `_serverid` and
`_last_auth_attempt` (`_auth_backoff` is the constant 30).  Time is an
explicit natural-number parameter supplied by the environment; the two
`time.time()` reads inside one `authenticate` call are modelled as the
same instant.  Transport-level exceptions (`aiohttp.ClientError` and
friends), which make `authenticate` return `False` and make
`_make_ajax_request` raise, are not part of the response model; the
`asyncio` lock serialising authentication is outside a sequential
embedding. -/

/-- Session state of `EvcNetApiClient`.  `phpsessid = Option.none`
models the initial Python `None`; a stored empty string is the other
falsy possibility. -/
structure ClientState where
  is_authenticated : Bool
  phpsessid : Option String
  serverid : Option String
  last_auth_attempt : Nat
deriving DecidableEq, Repr

/-- Python truthiness of an optional string: `None` and the empty string
are falsy. -/
def pyTruthyStr (o : Option String) : Bool := o.getD "" != ""

/-- One login exchange as seen by `authenticate`: the current time, the
status of the credential POST, the cookie jar contents (key-value pairs,
in iteration order) observed after the POST, the `Location` header, and
the jar contents observed after manually following the redirect. -/
structure LoginWorld where
  now : Nat
  postStatus : Nat
  jarAfterPost : List (String × String)
  location : Option String
  jarAfterRedirect : List (String × String)

/-- One iteration of the cookie-jar scan loop of api.py (lines 93-110
and 127-144): a `PHPSESSID` cookie overwrites `_phpsessid`, a
`SERVERID` cookie overwrites `_serverid`. -/
def scanStep (st : ClientState) (c : String × String) : ClientState :=
  let st1 := if c.1 == "PHPSESSID" then { st with phpsessid := Option.some c.2 } else st
  if c.1 == "SERVERID" then { st1 with serverid := Option.some c.2 } else st1

/-- api.py, the cookie-jar scan loop: every cookie is inspected in jar
order. -/
def scanCookies (s : ClientState) (jar : List (String × String)) : ClientState :=
  jar.foldl scanStep s

/-- Value of the last cookie named `k` in the jar, if any. -/
def lastCookie (k : String) : List (String × String) → Option String
  | [] => Option.none
  | c :: rest =>
    (lastCookie k rest).or (if c.1 == k then Option.some c.2 else Option.none)

/-- api.py, `authenticate` (lines 32-176): returns the boolean result,
the state after the call, and the number of HTTP exchanges performed
(0 when the backoff short-circuit fires, otherwise 1 for the POST plus
1 for the manual redirect GET when it is issued).  The backoff guard,
the 302-only success condition, the two-stage cookie scan and the
final `if self._phpsessid` truthiness test follow the source. -/
def authenticate (s : ClientState) (w : LoginWorld) : Bool × ClientState × Nat :=
  if s.is_authenticated && (w.now - s.last_auth_attempt < 30) then
    (true, s, 0)
  else
    let s1 := { s with last_auth_attempt := w.now }
    if w.postStatus == 302 then
      let s2 := scanCookies s1 w.jarAfterPost
      let step2 :=
        if !pyTruthyStr s2.phpsessid && w.location.isSome then
          (scanCookies s2 w.jarAfterRedirect, 2)
        else (s2, 1)
      if pyTruthyStr step2.1.phpsessid then
        (true, { step2.1 with is_authenticated := true }, step2.2)
      else
        (false, step2.1, step2.2)
    else
      (false, s1, 1)

/-- One response to the AJAX POST: HTTP status, `Content-Type` header and
body text. -/
structure AjaxResponse where
  status : Nat
  contentType : String
  body : String

/-- Checks whether the character list `p` is a leading segment of `l`. -/
def leadsList : List Char → List Char → Bool
  | [], _ => true
  | _ :: _, [] => false
  | a :: p, b :: l => a == b && leadsList p l

/-- Contiguous-substring test on character lists. -/
def containsSubAux (p : List Char) : List Char → Bool
  | [] => leadsList p []
  | l@(_ :: rest) => leadsList p l || containsSubAux p rest

/-- Python `pat in s` on strings: contiguous substring containment. -/
def containsSub (pat s : String) : Bool := containsSubAux pat.toList s.toList

/-- api.py line 230: the content type contains application/json or
text/html. -/
def contentTypeOk (ct : String) : Bool :=
  containsSub "application/json" ct || containsSub "text/html" ct

/-- api.py line 236: the body, stripped of surrounding whitespace, starts
with a bracket or a brace, i.e. looks structurally like JSON.  Stripping
and then testing the first character is the same as testing the first
non-whitespace character, so the check is phrased on the character
list.  The brace character is written by code point (123). -/
def looksJson (body : String) : Bool :=
  match body.toList.dropWhile Char.isWhitespace with
  | [] => false
  | c :: _ => c == '[' || c == Char.ofNat 123

/-- Environment of one `_make_ajax_request` call tree: `jsonLoads`
models `json.loads` on a body (its error is `json.JSONDecodeError`),
`logins` is the stream of login exchanges consumed by successive
`authenticate` network attempts, and `resps` the stream of responses to
successive AJAX POSTs. -/
structure Env (J : Type) where
  jsonLoads : String → Except String J
  logins : Nat → LoginWorld
  resps : Nat → AjaxResponse

/-- Outcome of a `_make_ajax_request` call: the returned or raised
value, the final session state, the next unconsumed indices of the two
streams, the payloads of the AJAX POSTs issued (in order), and the
number of login HTTP exchanges performed. -/
structure AjaxOutcome (J : Type) where
  result : Except String J
  state : ClientState
  ai : Nat
  li : Nat
  posts : List String
  nlogins : Nat

/-- api.py, `_make_ajax_request` (lines 178-291), with the retry counter
re-indexed: the source guards on `_retry_count > 1` and recurses with
`_retry_count + 1`, which is the same as starting from
`attempts = 2 - _retry_count` remaining attempts and decrementing, so the
recursion is structural.  Each branch mirrors the source: the
authentication precondition, the 200/JSON, 200/HTML, unexpected
content-type, 401/302 and other-status branches, with the exception
messages of the source as error values. -/
def make_ajax_request_aux {J : Type} (env : Env J) (payload : String) :
    Nat → ClientState → Nat → Nat → AjaxOutcome J
  | 0, s, ai, li => ⟨Except.error "Max retries exceeded for API request", s, ai, li, [], 0⟩
  | attempts + 1, s, ai, li =>
    let pre :=
      if !s.is_authenticated then
        let a := authenticate s (env.logins li)
        (a.1, a.2.1, li + 1, a.2.2)
      else (true, s, li, 0)
    if !pre.1 then
      ⟨Except.error "Failed to authenticate", pre.2.1, ai, pre.2.2.1, [], pre.2.2.2⟩
    else
      let s1 := pre.2.1
      let li1 := pre.2.2.1
      let n1 := pre.2.2.2
      let resp := env.resps ai
      if resp.status == 200 then
        if contentTypeOk resp.contentType then
          if looksJson resp.body then
            match env.jsonLoads resp.body with
            | Except.ok v => ⟨Except.ok v, s1, ai + 1, li1, [payload], n1⟩
            | Except.error e => ⟨Except.error e, s1, ai + 1, li1, [payload], n1⟩
          else
            let s2 := { s1 with is_authenticated := false }
            let a := authenticate s2 (env.logins li1)
            if a.1 then
              let r := make_ajax_request_aux env payload attempts a.2.1 (ai + 1) (li1 + 1)
              ⟨r.result, r.state, r.ai, r.li, payload :: r.posts, n1 + a.2.2 + r.nlogins⟩
            else
              ⟨Except.error "Re-authentication failed or still getting HTML response",
                a.2.1, ai + 1, li1 + 1, [payload], n1 + a.2.2⟩
        else
          ⟨Except.error ("Unexpected content type: " ++ resp.contentType),
            s1, ai + 1, li1, [payload], n1⟩
      else if resp.status == 401 || resp.status == 302 then
        let s2 := { s1 with is_authenticated := false }
        let a := authenticate s2 (env.logins li1)
        if a.1 then
          let r := make_ajax_request_aux env payload attempts a.2.1 (ai + 1) (li1 + 1)
          ⟨r.result, r.state, r.ai, r.li, payload :: r.posts, n1 + a.2.2 + r.nlogins⟩
        else
          ⟨Except.error "Re-authentication failed", a.2.1, ai + 1, li1 + 1, [payload], n1 + a.2.2⟩
      else
        ⟨Except.error ("Request failed with status " ++ toString resp.status),
          s1, ai + 1, li1, [payload], n1⟩

/-- api.py, `_make_ajax_request` entry point: `retry_count` is the
`_retry_count` argument of the source (0 at every external call
site). -/
def make_ajax_request {J : Type} (env : Env J) (payload : String) (retry_count : Nat)
    (s : ClientState) (ai li : Nat) : AjaxOutcome J :=
  make_ajax_request_aux env payload (2 - retry_count) s ai li

/-- Classification used in the retry claims: an HTTP 200 response whose
content type passes the api.py line 230 gate but whose body does not look
like JSON, i.e. the expired-session HTML page. -/
def isHtml200 (r : AjaxResponse) : Bool :=
  r.status == 200 && contentTypeOk r.contentType && !looksJson r.body

/-- A login exchange that makes `authenticate` succeed from any state:
the POST answers 302 and the jar already holds a non-empty `PHPSESSID`
after the POST. -/
def goodLogin (w : LoginWorld) : Bool :=
  w.postStatus == 302 && pyTruthyStr (lastCookie "PHPSESSID" w.jarAfterPost)

/-- Specification-side notion used by the authentication claim: a
session token is discoverable for a login exchange when a non-empty
`PHPSESSID` sits in the jar after the POST, or, failing that, when a
redirect `Location` is present and the token sits in the jar after
following it. -/
def tokenDiscoverable (w : LoginWorld) : Bool :=
  pyTruthyStr (lastCookie "PHPSESSID" w.jarAfterPost) ||
  (!pyTruthyStr (lastCookie "PHPSESSID" w.jarAfterPost) && w.location.isSome &&
    pyTruthyStr (lastCookie "PHPSESSID" w.jarAfterRedirect))

/-! ## coordinator.py: EvcNetCoordinator

Payloads flowing through the coordinator are heterogeneous Python
values; `PVal` models the shapes the coordinator inspects (`None`,
booleans, integers, strings, lists, string-keyed dictionaries).  The
snapshot `self.data` is a dictionary keyed by the raw `IDX` value of a
spot; container values are unhashable as Python dictionary keys (using
one raises `TypeError` at the assignment), so key comparison is modelled
on scalar values only, and the cross-type equality `True == 1` is not
modelled. -/

/-- Heterogeneous Python value. -/
inductive PVal where
  | pnone : PVal
  | pbool : Bool → PVal
  | pint : Int → PVal
  | pstr : String → PVal
  | plist : List PVal → PVal
  | pdict : List (String × PVal) → PVal

/-- Python truthiness: `None`, `False`, `0`, the empty string and empty
containers are falsy. -/
def pyTruthy : PVal → Bool
  | PVal.pnone => false
  | PVal.pbool b => b
  | PVal.pint n => n != 0
  | PVal.pstr s => s != ""
  | PVal.plist xs => !xs.isEmpty
  | PVal.pdict kvs => !kvs.isEmpty

/-- Python `str(v)` for the scalar values the coordinator stringifies
(`IDX` and `CHANNEL` entries); the rendering of containers, which is
never compared against anything, is abbreviated. -/
def pyStr : PVal → String
  | PVal.pnone => "None"
  | PVal.pbool true => "True"
  | PVal.pbool false => "False"
  | PVal.pint n => toString n
  | PVal.pstr s => s
  | PVal.plist _ => "[...]"
  | PVal.pdict _ => "\x7b...\x7d"

/-- Python `==` on snapshot keys (scalar values; containers are
unhashable as keys, see above). -/
def pvalBeq : PVal → PVal → Bool
  | PVal.pnone, PVal.pnone => true
  | PVal.pbool a, PVal.pbool b => a == b
  | PVal.pint a, PVal.pint b => a == b
  | PVal.pstr a, PVal.pstr b => a == b
  | _, _ => false

/-- Lookup in a string-keyed Python dictionary (`d.get(k)` without
default yields `None` for a missing key, which `Option.none` models). -/
def dictGet (kvs : List (String × PVal)) (k : String) : Option PVal :=
  (kvs.find? (fun kv => kv.1 == k)).map (fun kv => kv.2)

/-- Assignment `d[k] = v` in a string-keyed Python dictionary: replaces
the value of an existing key, otherwise appends (insertion order). -/
def dictSet (kvs : List (String × PVal)) (k : String) (v : PVal) : List (String × PVal) :=
  if (kvs.find? (fun kv => kv.1 == k)).isSome then
    kvs.map (fun kv => if kv.1 == k then (kv.1, v) else kv)
  else kvs ++ [(k, v)]

/-- The snapshot `self.data`: a Python dictionary from raw spot
identifiers to per-spot entries, in insertion order. -/
abbrev Snapshot : Type := List (PVal × PVal)

/-- Snapshot lookup under Python key equality. -/
def snapLookup (m : Snapshot) (k : PVal) : Option PVal :=
  (m.find? (fun kv => pvalBeq kv.1 k)).map (fun kv => kv.2)

/-- Python `k in d` on the snapshot. -/
def snapMember (m : Snapshot) (k : PVal) : Bool :=
  (m.find? (fun kv => pvalBeq kv.1 k)).isSome

/-- Snapshot assignment `data[spot_id] = entry`. -/
def snapSet (m : Snapshot) (k : PVal) (v : PVal) : Snapshot :=
  if snapMember m k then
    m.map (fun kv => if pvalBeq kv.1 k then (kv.1, v) else kv)
  else m ++ [(k, v)]

/-- Requests the coordinator can issue through the client during one
refresh cycle; the arguments are the stringified spot id and channel. -/
inductive Req where
  | fleet : Req
  | overview : String → Req
  | usage : String → Req
  | log : String → String → Req
deriving DecidableEq, Repr

/-- Responses of the domain facade as the coordinator sees them; an
`Except.error` models a raised exception. -/
structure FetchEnv where
  get_charge_spots : Except String PVal
  get_spot_overview : String → Except String PVal
  get_spot_total_energy_usage : String → Except String PVal
  get_spot_log : String → String → Except String PVal

/-- coordinator.py, the channel-splitting loop (lines 100-107): the
first delimiter of `"," ";" "|" "/"` occurring in the descriptor wins;
parts are stripped and empty parts dropped; when nothing survives, the
whole descriptor is the single channel. -/
def splitChannels (s : String) : List String :=
  let sep :=
    if containsSub "," s then Option.some ","
    else if containsSub ";" s then Option.some ";"
    else if containsSub "|" s then Option.some "|"
    else if containsSub "/" s then Option.some "/"
    else Option.none
  let channels :=
    match sep with
    | Option.some sp => ((s.splitOn sp).map String.trim).filter (fun t => t != "")
    | Option.none => []
  if channels.isEmpty then [s] else channels

/-- coordinator.py, channel derivation (lines 81-112): per-channel
status items of `status[0]` come first; the `CHANNEL` field of the spot
record is the fallback; `["1"]` is the default.  Returns the channel
list together with the `channel_status` dictionary. -/
def deriveChannels (status : PVal) (spotKvs : List (String × PVal)) :
    List String × List (String × PVal) :=
  let fromStatus :=
    match status with
    | PVal.plist (first :: _) =>
      match first with
      | PVal.plist items =>
        items.foldl (fun (acc : List String × List (String × PVal)) item =>
          match item with
          | PVal.pdict ikvs =>
            match (dictGet ikvs "CHANNEL").getD PVal.pnone with
            | PVal.pnone => acc
            | ch =>
              let chStr := pyStr ch
              (if acc.1.contains chStr then acc.1 else acc.1 ++ [chStr],
                dictSet acc.2 chStr item)
          | _ => acc) ([], [])
      | _ => ([], [])
    | _ => ([], [])
  let channels :=
    if fromStatus.1.isEmpty then
      match (dictGet spotKvs "CHANNEL").getD PVal.pnone with
      | PVal.plist xs => xs.map pyStr
      | PVal.pstr s => splitChannels s
      | PVal.pnone => []
      | other => [pyStr other]
    else fromStatus.1
  let channels := if channels.isEmpty then ["1"] else channels
  (channels, fromStatus.2)

/-- coordinator.py, per-spot fallback (lines 127-136): keep the previous
snapshot entry for the spot when one exists, otherwise a minimal
placeholder.  `self.data` is `None` before the first successful refresh
(the host DataUpdateCoordinator initialises it so), and `spot_id in
None` raises `TypeError`, which escapes the per-spot handler. -/
def spotFallback (prev : Option Snapshot) (spot : PVal) (sid : PVal) :
    Except String (PVal × PVal) :=
  match prev with
  | Option.none =>
    Except.error "TypeError: argument of type NoneType is not iterable"
  | Option.some m =>
    match snapLookup m sid with
    | Option.some e => Except.ok (sid, e)
    | Option.none =>
      Except.ok (sid,
        PVal.pdict [("info", spot), ("status", PVal.plist []),
          ("total_energy_usage", PVal.plist []), ("log", PVal.plist [])])

/-- coordinator.py, the cached-log fallback of the inner log handler
(line 75): `self.data.get(spot_id, ...).get("log", ...)` guarded by the
truthiness of `self.data` (both `None` and an empty snapshot give the
empty list); a non-dictionary entry cannot occur in a reachable
snapshot. -/
def cachedLog (prev : Option Snapshot) (sid : PVal) : PVal :=
  match prev with
  | Option.some m =>
    if !m.isEmpty then
      match (snapLookup m sid).getD (PVal.pdict []) with
      | PVal.pdict ekvs => (dictGet ekvs "log").getD (PVal.plist [])
      | _ => PVal.plist []
    else PVal.plist []
  | Option.none => PVal.plist []

/-- coordinator.py, the body of the per-spot loop (lines 57-136) for one
spot record: the result carries the snapshot entry to store (`none` when
the spot is skipped for a falsy `IDX`) or the exception that aborts the
cycle, together with the requests issued for this spot.  A non-dictionary
spot record raises `AttributeError` at `spot.get` (line 59), outside the
per-spot `try`. -/
def processSpot (prev : Option Snapshot) (env : FetchEnv) (spot : PVal) :
    Except String (Option (PVal × PVal)) × List Req :=
  match spot with
  | PVal.pdict kvs =>
    let sid := (dictGet kvs "IDX").getD PVal.pnone
    if !pyTruthy sid then (Except.ok Option.none, [])
    else
      let sidStr := pyStr sid
      match env.get_spot_overview sidStr with
      | Except.error _ =>
        ((spotFallback prev spot sid).map Option.some, [Req.overview sidStr])
      | Except.ok status =>
        match env.get_spot_total_energy_usage sidStr with
        | Except.error _ =>
          ((spotFallback prev spot sid).map Option.some,
            [Req.overview sidStr, Req.usage sidStr])
        | Except.ok usage =>
          let fallbackChannel := pyStr ((dictGet kvs "CHANNEL").getD (PVal.pstr "1"))
          let logData :=
            match env.get_spot_log sidStr fallbackChannel with
            | Except.ok l => l
            | Except.error _ => cachedLog prev sid
          let cs := deriveChannels status kvs
          let entry := PVal.pdict [("info", spot), ("status", status),
            ("total_energy_usage", usage), ("log", logData),
            ("channels", PVal.plist (cs.1.map PVal.pstr)),
            ("channel_status", PVal.pdict cs.2)]
          (Except.ok (Option.some (sid, entry)),
            [Req.overview sidStr, Req.usage sidStr, Req.log sidStr fallbackChannel])
  | _ => (Except.error "AttributeError: object has no attribute get", [])

/-- coordinator.py, charge-spot discovery (lines 37-46): the expected
shape is a non-empty list whose first element is a non-empty list of
spot records; any other shape leaves the cached list empty. -/
def extractSpots (resp : PVal) : List PVal :=
  match resp with
  | PVal.plist (first :: _) =>
    match first with
    | PVal.plist (x :: xs) => x :: xs
    | _ => []
  | _ => []

/-- Specification-side notion used by the discovery claim: the expected
fleet-response shape is a non-empty list whose first element is a
non-empty list of spot records. -/
def fleetShapeOk (resp : PVal) : Bool :=
  match resp with
  | PVal.plist (PVal.plist (_ :: _) :: _) => true
  | _ => false

/-- Outcome of one refresh cycle: the cached spot list after the cycle,
the returned snapshot or the `UpdateFailed` error, and the requests
issued. -/
structure CycleOut where
  spots : List PVal
  result : Except String Snapshot
  reqs : List Req

/-- Folding step over the spot list: a raised exception short-circuits
the loop, otherwise the produced entry is stored under its spot id. -/
def spotStep (prev : Option Snapshot) (env : FetchEnv)
    (acc : Except String Snapshot × List Req) (spot : PVal) :
    Except String Snapshot × List Req :=
  match acc with
  | (Except.error e, reqs) => (Except.error e, reqs)
  | (Except.ok snap, reqs) =>
    match processSpot prev env spot with
    | (Except.error e, r) => (Except.error e, reqs ++ r)
    | (Except.ok Option.none, r) => (Except.ok snap, reqs ++ r)
    | (Except.ok (Option.some (sid, entry)), r) =>
      (Except.ok (snapSet snap sid entry), reqs ++ r)

/-- coordinator.py, `_async_update_data` (lines 29-141): discovery runs
only while the cached list is empty; an empty list after discovery
returns an empty snapshot; otherwise the spots are processed in order
and any escaping exception surfaces as `UpdateFailed` (here the error
message carries the source prefix). -/
def async_update_data (charge_spots : List PVal) (prev : Option Snapshot)
    (env : FetchEnv) : CycleOut :=
  if charge_spots.isEmpty then
    match env.get_charge_spots with
    | Except.error e =>
      ⟨charge_spots, Except.error ("Error communicating with API: " ++ e), [Req.fleet]⟩
    | Except.ok resp =>
      let cs := extractSpots resp
      if cs.isEmpty then ⟨cs, Except.ok [], [Req.fleet]⟩
      else
        match cs.foldl (spotStep prev env) (Except.ok [], [Req.fleet]) with
        | (Except.error e, reqs) =>
          ⟨cs, Except.error ("Error communicating with API: " ++ e), reqs⟩
        | (Except.ok snap, reqs) => ⟨cs, Except.ok snap, reqs⟩
  else
    match charge_spots.foldl (spotStep prev env) (Except.ok [], []) with
    | (Except.error e, reqs) =>
      ⟨charge_spots, Except.error ("Error communicating with API: " ++ e), reqs⟩
    | (Except.ok snap, reqs) => ⟨charge_spots, Except.ok snap, reqs⟩

/-- Coordinator state across cycles: the cached spot list and the
exposed snapshot (`none` before the first successful refresh). -/
structure CoordState where
  charge_spots : List PVal
  data : Option Snapshot

/-- One scheduler-driven cycle: on success the returned snapshot becomes
the exposed data, on `UpdateFailed` the previous data stays. -/
def runCycle (st : CoordState) (env : FetchEnv) : CoordState × List Req :=
  let out := async_update_data st.charge_spots st.data env
  (⟨out.spots,
    match out.result with
    | Except.ok snap => Option.some snap
    | Except.error _ => st.data⟩, out.reqs)

/-- A sequence of cycles, accumulating all issued requests. -/
def runCycles (st : CoordState) : List FetchEnv → CoordState × List Req
  | [] => (st, [])
  | e :: es =>
    let r := runCycle st e
    let rest := runCycles r.1 es
    (rest.1, r.2 ++ rest.2)

/-! ## The multi-channel per-spot refresh (not present in
`coordinator.py`).

Modelled from the spec: the repository also contains a multi-channel
variant of the coordinator — `__init__.py` line 280 constructs
`EvcNetCoordinator(hass, client, max_channels=max_channels)` with the
`CONF_MAX_CHANNELS` option of const.py, a parameter the coordinator.py
variant included here does not accept.  Following section 4.4 of the
spec, that variant derives the per-spot channel count as
`max(configured_max_channels, channels_detected_in_overview)` and
fetches one log per channel `1..effective_count`. -/

/-- Modelled from the spec: the channels detected in a spot overview are
the distinct `CHANNEL` fields of the per-channel items of the first
element of the overview payload (the detection the source applies to the
same payload shape). -/
def channels_detected_in_overview (overview : PVal) : List String :=
  match overview with
  | PVal.plist (first :: _) =>
    match first with
    | PVal.plist items =>
      items.foldl (fun (acc : List String) item =>
        match item with
        | PVal.pdict ikvs =>
          match (dictGet ikvs "CHANNEL").getD PVal.pnone with
          | PVal.pnone => acc
          | ch =>
            let chStr := pyStr ch
            if acc.contains chStr then acc else acc ++ [chStr]
        | _ => acc) []
    | _ => []
  | _ => []

/-- Modelled from the spec: the effective per-spot channel count is the
maximum of the configured `max_channels` setting and the number of
channels detected in the overview. -/
def effective_channel_count (configured_max : Nat) (overview : PVal) : Nat :=
  max configured_max (channels_detected_in_overview overview).length

/-- Modelled from the spec: one log fetch per channel
`1..effective_count` for one spot in one cycle. -/
def log_fetches_for_spot (configured_max : Nat) (overview : PVal) (sid : String) :
    List Req :=
  (List.range (effective_channel_count configured_max overview)).map
    (fun i => Req.log sid (toString (i + 1)))

/-! ## Concrete scenario data -/

/-- A login exchange delivering a session cookie directly after the
POST. -/
def wGood : LoginWorld := ⟨0, 302, [("PHPSESSID", "abc123")], Option.none, []⟩

/-- A 302 login exchange with an empty cookie jar and no redirect. -/
def wNoCookie : LoginWorld := ⟨100, 302, [], Option.none, []⟩

/-- A login exchange that is never reached over the network. -/
def wIdle : LoginWorld := ⟨10, 0, [], Option.none, []⟩

/-- An authenticated client, last authenticated at time 0. -/
def sAuth : ClientState := ⟨true, Option.some "tok", Option.none, 0⟩

/-- A freshly constructed client (matching `__init__` of the source). -/
def sFresh : ClientState := ⟨false, Option.none, Option.none, 0⟩

/-- A de-authenticated client still holding a stale session token. -/
def sStale : ClientState := ⟨false, Option.some "stale", Option.none, 0⟩

/-- An environment whose every AJAX response is the expired-session HTML
page and whose logins always succeed. -/
def envHtml : Env Nat :=
  ⟨fun _ => Except.error "nojson", fun _ => wGood,
    fun _ => ⟨200, "text/html", "<html>login page</html>"⟩⟩

/-- An environment answering a JSON-shaped body under the content type
text/plain. -/
def envPlain : Env Nat :=
  ⟨fun _ => Except.ok 42, fun _ => wGood, fun _ => ⟨200, "text/plain", "[]"⟩⟩

/-- An environment answering a well-formed JSON body. -/
def envJson : Env Nat :=
  ⟨fun b => if b == "[1]" then Except.ok 7 else Except.error "nojson",
    fun _ => wGood, fun _ => ⟨200, "application/json", "[1]"⟩⟩

/-- A spot record with a truthy `IDX`. -/
def spotA : PVal := PVal.pdict [("IDX", PVal.pstr "5"), ("NAME", PVal.pstr "Lot A")]

/-- A spot record with a falsy `IDX` (empty string). -/
def spotNoIdx : PVal := PVal.pdict [("IDX", PVal.pstr ""), ("NAME", PVal.pstr "Ghost")]

/-- A fetch environment in which every per-spot fetch raises. -/
def envFail : FetchEnv :=
  ⟨Except.error "unused", fun _ => Except.error "boom",
    fun _ => Except.error "boom", fun _ _ => Except.error "boom"⟩

/-- A fetch environment in which every per-spot fetch succeeds with an
empty list payload. -/
def envOk : FetchEnv :=
  ⟨Except.error "unused", fun _ => Except.ok (PVal.plist []),
    fun _ => Except.ok (PVal.plist []), fun _ _ => Except.ok (PVal.plist [])⟩

/-- The minimal placeholder entry the fallback builds for `spotA`. -/
def placeholderA : PVal :=
  PVal.pdict [("info", spotA), ("status", PVal.plist []),
    ("total_energy_usage", PVal.plist []), ("log", PVal.plist [])]

/-- A previous-cycle snapshot entry for `spotA`. -/
def prevEntryA : PVal := PVal.pdict [("info", spotA), ("status", PVal.pstr "cached")]

/-- The entry a successful cycle under `envOk` builds for `spotA`. -/
def entryA : PVal :=
  PVal.pdict [("info", spotA), ("status", PVal.plist []),
    ("total_energy_usage", PVal.plist []), ("log", PVal.plist []),
    ("channels", PVal.plist [PVal.pstr "1"]), ("channel_status", PVal.pdict [])]

/-- An overview payload listing three channel entries. -/
def ov3 : PVal :=
  PVal.plist [PVal.plist [PVal.pdict [("CHANNEL", PVal.pstr "1")],
    PVal.pdict [("CHANNEL", PVal.pstr "2")], PVal.pdict [("CHANNEL", PVal.pstr "3")]]]

/-! ## Helper lemmas -/

/-- Projection of one cookie-scan step onto the stored session token. -/
lemma scanStep_phpsessid (st : ClientState) (c : String × String) :
    (scanStep st c).phpsessid =
      if c.1 == "PHPSESSID" then Option.some c.2 else st.phpsessid := by
  unfold scanStep
  by_cases h1 : c.1 == "SERVERID" <;> by_cases h2 : c.1 == "PHPSESSID" <;> simp [h1, h2]

/-- The jar scan leaves the last `PHPSESSID` cookie in the state,
keeping the previous token when the jar has none. -/
lemma scanCookies_phpsessid (jar : List (String × String)) (s : ClientState) :
    (scanCookies s jar).phpsessid = (lastCookie "PHPSESSID" jar).or s.phpsessid := by
  induction jar generalizing s with
  | nil => rfl
  | cons c rest ih =>
    show (scanCookies (scanStep s c) rest).phpsessid = _
    rw [ih, scanStep_phpsessid]
    show _ = ((lastCookie "PHPSESSID" rest).or
      (if c.1 == "PHPSESSID" then Option.some c.2 else Option.none)).or s.phpsessid
    rcases lastCookie "PHPSESSID" rest with _ | v <;>
      by_cases h : c.1 == "PHPSESSID" <;> simp [h, Option.or]

/-- Truthiness of an `Option.or` with a falsy fallback. -/
lemma pyTruthyStr_or (a b : Option String) (hb : pyTruthyStr b = false) :
    pyTruthyStr (a.or b) = pyTruthyStr a := by
  rcases a with _ | v
  · show pyTruthyStr b = pyTruthyStr Option.none
    rw [hb]
    rfl
  · rfl

/-- Scanning a jar whose last `PHPSESSID` is truthy leaves a truthy
token regardless of the starting state. -/
lemma scan_truthy (st : ClientState) (jar : List (String × String))
    (htr : pyTruthyStr (lastCookie "PHPSESSID" jar) = true) :
    pyTruthyStr (scanCookies st jar).phpsessid = true := by
  rw [scanCookies_phpsessid]
  rcases hlc : lastCookie "PHPSESSID" jar with _ | v
  · rw [hlc] at htr
    exact absurd htr (by decide)
  · rw [hlc] at htr
    exact htr

/-- Under a good login exchange, a de-authenticated client performs one
network login, succeeds, and ends authenticated. -/
lemma authenticate_good (s : ClientState) (w : LoginWorld)
    (hw : goodLogin w = true) (hs : s.is_authenticated = false) :
    (authenticate s w).1 = true ∧ (authenticate s w).2.1.is_authenticated = true ∧
      (authenticate s w).2.2 = 1 := by
  rw [goodLogin, Bool.and_eq_true] at hw
  have h302 : (w.postStatus == 302) = true := hw.1
  have htr := hw.2
  unfold authenticate
  rw [hs]
  simp only [Bool.false_and, Bool.false_eq_true, if_false]
  rw [if_pos h302]
  have e1 := scan_truthy ⟨false, s.phpsessid, s.serverid, w.now⟩ w.jarAfterPost htr
  simp [e1]

/-- With one attempt left and an authenticated state, exactly one AJAX
POST is issued regardless of the response. -/
lemma aux_one_posts {J : Type} (env : Env J) (payload : String) (s : ClientState)
    (ai li : Nat) (hs : s.is_authenticated = true) :
    (make_ajax_request_aux env payload 1 s ai li).posts = [payload] := by
  show (make_ajax_request_aux env payload (0 + 1) s ai li).posts = [payload]
  rw [make_ajax_request_aux]
  simp only [hs, Bool.not_true, Bool.false_eq_true, if_false]
  split
  · split
    · split
      · split <;> rfl
      · split
        · rfl
        · rfl
    · rfl
  · split
    · split
      · rfl
      · rfl
    · rfl

/-- With one attempt left, an HTML 200 response and a good login world,
the call ends with the maximum-retries error after one further login. -/
lemma aux_one_html {J : Type} (env : Env J) (payload : String) (s : ClientState)
    (ai li : Nat) (hs : s.is_authenticated = true)
    (hh : isHtml200 (env.resps ai) = true) (hg : goodLogin (env.logins li) = true) :
    (make_ajax_request_aux env payload 1 s ai li).result =
        Except.error "Max retries exceeded for API request" ∧
      (make_ajax_request_aux env payload 1 s ai li).nlogins = 1 := by
  rw [isHtml200, Bool.and_eq_true, Bool.and_eq_true] at hh
  have h200 : ((env.resps ai).status == 200) = true := hh.1.1
  have hct : contentTypeOk (env.resps ai).contentType = true := hh.1.2
  have hjs : looksJson (env.resps ai).body = false := by
    cases hx : looksJson (env.resps ai).body
    · rfl
    · rw [hx] at hh
      exact absurd hh.2 (by decide)
  obtain ⟨ha1, ha2, ha3⟩ := authenticate_good
    ⟨false, s.phpsessid, s.serverid, s.last_auth_attempt⟩ (env.logins li) hg rfl
  show (make_ajax_request_aux env payload (0 + 1) s ai li).result = _ ∧
    (make_ajax_request_aux env payload (0 + 1) s ai li).nlogins = 1
  rw [make_ajax_request_aux]
  simp [hs, h200, hct, hjs, ha1, ha3, make_ajax_request_aux]

/-- With one attempt left and an HTML 200 response, the call fails
whatever the second login exchange does. -/
lemma aux_one_html_err {J : Type} (env : Env J) (payload : String) (s : ClientState)
    (ai li : Nat) (hs : s.is_authenticated = true)
    (hh : isHtml200 (env.resps ai) = true) :
    (make_ajax_request_aux env payload 1 s ai li).result.isOk = false := by
  rw [isHtml200, Bool.and_eq_true, Bool.and_eq_true] at hh
  have h200 : ((env.resps ai).status == 200) = true := hh.1.1
  have hct : contentTypeOk (env.resps ai).contentType = true := hh.1.2
  have hjs : looksJson (env.resps ai).body = false := by
    cases hx : looksJson (env.resps ai).body
    · rfl
    · rw [hx] at hh
      exact absurd hh.2 (by decide)
  show (make_ajax_request_aux env payload (0 + 1) s ai li).result.isOk = false
  rw [make_ajax_request_aux]
  simp only [hs, Bool.not_true, Bool.false_eq_true, if_false, h200, if_true, hct, hjs]
  split
  · simp [make_ajax_request_aux, Except.isOk, Except.toBool]
  · simp [Except.isOk, Except.toBool]

/-- Digits accumulated by the digit-extraction loop stay below 10. -/
lemma decDigitsCore_digits_lt (fuel : Nat) :
    ∀ (n : Nat) (ds : List Nat), (∀ d ∈ ds, d < 10) →
      ∀ d ∈ decDigitsCore fuel n ds, d < 10 := by
  induction fuel with
  | zero => intro n ds h; exact h
  | succ fuel ih =>
    intro n ds h d hd
    rw [decDigitsCore] at hd
    by_cases hz : n / 10 = 0
    · rw [if_pos hz] at hd
      rcases List.mem_cons.mp hd with he | hm
      · rw [he]
        exact Nat.mod_lt n (by norm_num)
      · exact h d hm
    · rw [if_neg hz] at hd
      refine ih (n / 10) (n % 10 :: ds) ?_ d hd
      intro d2 hd2
      rcases List.mem_cons.mp hd2 with he | hm
      · rw [he]
        exact Nat.mod_lt n (by norm_num)
      · exact h d2 hm

/-- The digit-extraction loop never shortens its accumulator. -/
lemma decDigitsCore_length (fuel : Nat) :
    ∀ (n : Nat) (ds : List Nat), ds.length ≤ (decDigitsCore fuel n ds).length := by
  induction fuel with
  | zero => intro n ds; exact Nat.le_refl _
  | succ fuel ih =>
    intro n ds
    rw [decDigitsCore]
    by_cases hz : n / 10 = 0
    · rw [if_pos hz]
      exact Nat.le_succ_of_le (Nat.le_refl _)
    · rw [if_neg hz]
      exact Nat.le_trans (Nat.le_succ _) (ih (n / 10) (n % 10 :: ds))

/-- The decimal digit string of a number is never empty. -/
lemma decDigits_ne_nil (n : Nat) : decDigits n ≠ [] := by
  rw [decDigits, decDigitsCore]
  by_cases hz : n / 10 = 0
  · rw [if_pos hz]
    exact List.cons_ne_nil _ _
  · rw [if_neg hz]
    intro hc
    have := decDigitsCore_length n (n / 10) [n % 10]
    rw [hc] at this
    exact absurd this (by simp)

/-- Every decimal digit is below 10. -/
lemma decDigits_lt (n : Nat) : ∀ d ∈ decDigits n, d < 10 :=
  decDigitsCore_digits_lt (n + 1) n [] (by intro d hd; cases hd)

/-- Hexadecimal parsing succeeds on a non-empty string of decimal
digits. -/
lemma int16_isSome (ds : List Nat) (h1 : ds ≠ []) (h2 : ∀ d ∈ ds, d < 10) :
    (int16 ds).isSome = true := by
  unfold int16
  rw [if_neg (by simp [List.isEmpty_iff, h1]), if_neg ?hv]
  · rfl
  case hv =>
    simp only [List.any_eq_true, not_exists, not_and]
    intro x hx
    have := h2 x hx
    simp
    omega

/-- The per-spot request lists never contain the fleet request. -/
lemma processSpot_no_fleet (prev : Option Snapshot) (env : FetchEnv) (spot : PVal) :
    Req.fleet ∉ (processSpot prev env spot).2 := by
  rcases spot with _ | _ | _ | _ | xs | kvs <;> simp [processSpot]
  split
  · simp
  · split
    · simp
    · split <;> simp

/-- Folding the per-spot step adds no fleet request. -/
lemma foldl_no_fleet (prev : Option Snapshot) (env : FetchEnv) (cs : List PVal)
    (acc : Except String Snapshot × List Req) (h : Req.fleet ∉ acc.2) :
    Req.fleet ∉ (cs.foldl (spotStep prev env) acc).2 := by
  induction cs generalizing acc with
  | nil => exact h
  | cons spot rest ih =>
    apply ih
    unfold spotStep
    rcases acc with ⟨res, reqs⟩
    rcases res with e | snap
    · exact h
    · rcases hps : processSpot prev env spot with ⟨pres, pr⟩
      have hpr : Req.fleet ∉ pr := by
        have := processSpot_no_fleet prev env spot
        rw [hps] at this
        exact this
      rcases pres with e | oe
      · simp [List.mem_append]
        exact ⟨h, hpr⟩
      · rcases oe with _ | ⟨sid, entry⟩ <;>
        · simp [List.mem_append]
          exact ⟨h, hpr⟩

/-- Folding the per-spot step preserves the fleet-request count. -/
lemma foldl_count_fleet (prev : Option Snapshot) (env : FetchEnv) (cs : List PVal)
    (acc : Except String Snapshot × List Req) :
    ((cs.foldl (spotStep prev env) acc).2).count Req.fleet = acc.2.count Req.fleet := by
  induction cs generalizing acc with
  | nil => rfl
  | cons spot rest ih =>
    rw [List.foldl_cons, ih]
    unfold spotStep
    rcases acc with ⟨res, reqs⟩
    rcases res with e | snap
    · rfl
    · rcases hps : processSpot prev env spot with ⟨pres, pr⟩
      have hpr : Req.fleet ∉ pr := by
        have := processSpot_no_fleet prev env spot
        rw [hps] at this
        exact this
      have hc : pr.count Req.fleet = 0 := List.count_eq_zero.mpr hpr
      rcases pres with e | oe
      · simp [List.count_append, hc]
      · rcases oe with _ | ⟨sid, entry⟩ <;> simp [List.count_append, hc]

/-- A fleet response of unexpected shape yields no spots. -/
lemma extractSpots_eq_nil (resp : PVal) (h : fleetShapeOk resp = false) :
    extractSpots resp = [] := by
  rcases resp with _ | _ | _ | _ | xs | kvs <;> try rfl
  rcases xs with _ | ⟨first, rest⟩
  · rfl
  · rcases first with _ | _ | _ | _ | inner | _ <;> try rfl
    rcases inner with _ | ⟨x, xs2⟩
    · rfl
    · exact absurd h (by simp [fleetShapeOk])

/-- A cycle starting from a non-empty cached spot list keeps the list
and issues no fleet request. -/
lemma update_nonempty_spots (cs : List PVal) (prev : Option Snapshot) (env : FetchEnv)
    (h : cs ≠ []) :
    (async_update_data cs prev env).spots = cs ∧
      Req.fleet ∉ (async_update_data cs prev env).reqs := by
  have he : cs.isEmpty = false := by
    rcases cs with _ | ⟨a, l⟩
    · exact absurd rfl h
    · rfl
  unfold async_update_data
  rw [he]
  simp only [Bool.false_eq_true, if_false]
  split
  · next e reqs heq =>
    refine ⟨rfl, ?_⟩
    have := foldl_no_fleet prev env cs (Except.ok [], []) (by simp)
    rw [heq] at this
    exact this
  · next snap reqs heq =>
    refine ⟨rfl, ?_⟩
    have := foldl_no_fleet prev env cs (Except.ok [], []) (by simp)
    rw [heq] at this
    exact this

/-- A cycle starting from an empty cached spot list issues the fleet
request exactly once. -/
lemma update_empty_fleet_once (prev : Option Snapshot) (env : FetchEnv) :
    ((async_update_data [] prev env).reqs).count Req.fleet = 1 := by
  unfold async_update_data
  simp only [List.isEmpty_nil, if_true]
  split
  · rfl
  · next resp heq =>
    split
    · rfl
    · split
      · next e reqs heq2 =>
        have := foldl_count_fleet prev env (extractSpots resp) (Except.ok [], [Req.fleet])
        rw [heq2] at this
        exact this
      · next snap reqs heq2 =>
        have := foldl_count_fleet prev env (extractSpots resp) (Except.ok [], [Req.fleet])
        rw [heq2] at this
        exact this

/-- A fleet response of unexpected shape is treated as zero spots and
the cycle succeeds with an empty snapshot. -/
lemma update_bad_shape (prev : Option Snapshot) (env : FetchEnv) (resp : PVal)
    (henv : env.get_charge_spots = Except.ok resp) (hshape : fleetShapeOk resp = false) :
    (async_update_data [] prev env).result = Except.ok [] ∧
      (async_update_data [] prev env).spots = [] := by
  unfold async_update_data
  simp only [List.isEmpty_nil, if_true, henv]
  rw [extractSpots_eq_nil resp hshape]
  exact ⟨rfl, rfl⟩

/-- Once the spot list is non-empty it stays fixed over any sequence of
cycles, none of which issues a fleet request. -/
lemma runCycles_no_fleet (envs : List FetchEnv) :
    ∀ st : CoordState, st.charge_spots ≠ [] →
      (runCycles st envs).1.charge_spots = st.charge_spots ∧
        Req.fleet ∉ (runCycles st envs).2 := by
  induction envs with
  | nil => intro st h; exact ⟨rfl, by simp [runCycles]⟩
  | cons e es ih =>
    intro st h
    have h1 := update_nonempty_spots st.charge_spots st.data e h
    have hr1 : (runCycle st e).1.charge_spots = st.charge_spots := h1.1
    have hr2 : Req.fleet ∉ (runCycle st e).2 := h1.2
    have hne : (runCycle st e).1.charge_spots ≠ [] := by
      rw [hr1]
      exact h
    have hih := ih (runCycle st e).1 hne
    constructor
    · show (runCycles (runCycle st e).1 es).1.charge_spots = st.charge_spots
      exact hih.1.trans hr1
    · show Req.fleet ∉ (runCycle st e).2 ++ (runCycles (runCycle st e).1 es).2
      intro hmem
      rcases List.mem_append.mp hmem with hm | hm
      · exact hr2 hm
      · exact hih.2 hm

/-! ## Claim theorems -/

/-- Claim C1: when a data request receives an HTTP 200 response with an
HTML body (content type accepted by the api.py check, body not starting
with a bracket or brace), the engine clears the authenticated flag,
re-authenticates, and retries the same payload exactly once more; when
the retry also receives such a body the call fails with an error and no
third data request is issued.  The retry is visible as the POST trace
`[payload, payload]`; the flag clearing is visible in the two network
logins performed even for login worlds inside the backoff window. -/
theorem c1_html_retry_exactly_once {J : Type} (env : Env J) (payload : String)
    (s : ClientState) (ai li : Nat)
    (hs : s.is_authenticated = true)
    (hh : isHtml200 (env.resps ai) = true)
    (hg : goodLogin (env.logins li) = true) :
    (make_ajax_request env payload 0 s ai li).posts = [payload, payload] ∧
    (isHtml200 (env.resps (ai + 1)) = true →
      (make_ajax_request env payload 0 s ai li).result.isOk = false) ∧
    (isHtml200 (env.resps (ai + 1)) = true → goodLogin (env.logins (li + 1)) = true →
      (make_ajax_request env payload 0 s ai li).result =
          Except.error "Max retries exceeded for API request" ∧
        (make_ajax_request env payload 0 s ai li).nlogins = 2) := by
  rw [isHtml200, Bool.and_eq_true, Bool.and_eq_true] at hh
  have h200 : ((env.resps ai).status == 200) = true := hh.1.1
  have hct : contentTypeOk (env.resps ai).contentType = true := hh.1.2
  have hjs : looksJson (env.resps ai).body = false := by
    cases hx : looksJson (env.resps ai).body
    · rfl
    · rw [hx] at hh
      exact absurd hh.2 (by decide)
  obtain ⟨ha1, ha2, ha3⟩ := authenticate_good
    ⟨false, s.phpsessid, s.serverid, s.last_auth_attempt⟩ (env.logins li) hg rfl
  show (make_ajax_request_aux env payload (1 + 1) s ai li).posts = _ ∧ _ ∧ _
  refine ⟨?_, ?_, ?_⟩
  · rw [make_ajax_request_aux]
    simp only [hs, Bool.not_true, Bool.false_eq_true, if_false, h200, if_true, hct, hjs, ha1]
    simp [aux_one_posts _ _ _ _ _ ha2]
  · intro hh2
    show (make_ajax_request_aux env payload (1 + 1) s ai li).result.isOk = false
    rw [make_ajax_request_aux]
    simp only [hs, Bool.not_true, Bool.false_eq_true, if_false, h200, if_true, hct, hjs, ha1]
    simp [aux_one_html_err _ _ _ _ _ ha2 hh2]
  · intro hh2 hg2
    have h2 := aux_one_html env payload _ (ai + 1) (li + 1) ha2 hh2 hg2
    constructor
    · show (make_ajax_request_aux env payload (1 + 1) s ai li).result = _
      rw [make_ajax_request_aux]
      simp only [hs, Bool.not_true, Bool.false_eq_true, if_false, h200, if_true, hct, hjs, ha1]
      simp [h2.1]
    · show (make_ajax_request_aux env payload (1 + 1) s ai li).nlogins = 2
      rw [make_ajax_request_aux]
      simp only [hs, Bool.not_true, Bool.false_eq_true, if_false, h200, if_true, hct, hjs, ha1]
      simp [h2.2, ha3]

/-- Witness for claim C1: in the concrete environment whose responses
are all the expired-session HTML page, the call posts the payload
exactly twice, fails with the maximum-retries error and performs two
logins. -/
theorem c1_witness :
    (make_ajax_request envHtml "pay" 0 sAuth 0 0).posts = ["pay", "pay"] ∧
    (make_ajax_request envHtml "pay" 0 sAuth 0 0).result =
        Except.error "Max retries exceeded for API request" ∧
    (make_ajax_request envHtml "pay" 0 sAuth 0 0).nlogins = 2 := by
  have h := c1_html_retry_exactly_once envHtml "pay" sAuth 0 0 rfl (by decide) (by decide)
  exact ⟨h.1, (h.2.2 (by decide) (by decide)).1, (h.2.2 (by decide) (by decide)).2⟩

/-- Claim C2 (failing part and intended behaviour): with a single spot
whose overview fetch raises, the very first cycle (previous snapshot
still `None`) fails as a whole with the `TypeError` escaping from
`spot_id in self.data`, instead of producing the placeholder entry; once
a previous snapshot mapping exists the fallback behaves as the claim
states, keeping the previous entry verbatim or building the minimal
placeholder. -/
theorem c2_first_cycle_fallback :
    (async_update_data [spotA] Option.none envFail).result =
        Except.error
          "Error communicating with API: TypeError: argument of type NoneType is not iterable" ∧
    (async_update_data [spotA] (Option.some []) envFail).result =
        Except.ok [(PVal.pstr "5", placeholderA)] ∧
    (async_update_data [spotA] (Option.some [(PVal.pstr "5", prevEntryA)]) envFail).result =
        Except.ok [(PVal.pstr "5", prevEntryA)] :=
  ⟨rfl, rfl, rfl⟩

/-- Claim C3 (modelled from the spec, see `log_fetches_for_spot`): the
number of per-channel log fetches issued for a spot equals the maximum of
the configured max-channel setting and the number of channels detected
in the overview; with configured max 1 and an overview listing three
channel entries, exactly three log fetches are issued. -/
theorem c3_effective_channel_count :
    (∀ (cfg : Nat) (ov : PVal) (sid : String),
      (log_fetches_for_spot cfg ov sid).length =
        max cfg (channels_detected_in_overview ov).length) ∧
    channels_detected_in_overview ov3 = ["1", "2", "3"] ∧
    effective_channel_count 1 ov3 = 3 ∧
    log_fetches_for_spot 1 ov3 "5" =
      [Req.log "5" "1", Req.log "5" "2", Req.log "5" "3"] := by
  refine ⟨?_, rfl, rfl, rfl⟩
  intro cfg ov sid
  simp [log_fetches_for_spot, effective_channel_count]

/-- Claim C4: the status bitfield 0x3000000000020000 reaches the parser
as the decimal integer 3000000000020000 (the wire value whose decimal
text is the 16-hex-digit spelling of the bitfield); zero-padding that
text to 16 digits and splitting yields status1 = 0x30000000 and
status2 = 0x00020000; a channel with status1 = 0x30000000
(NO_COMMUNICATION) reports not-charging regardless of status2; and a
channel with status2 = 0x00010000 (OCCUPIED only) and no fault or
no-communication bits in status1 reports charging-active. -/
theorem c4_status_split_and_charging :
    parse_status_flags 3000000000020000 = Option.some (0x30000000, 0x00020000) ∧
    (∀ s2, is_on_from_flags 0x30000000 s2 = false) ∧
    (∀ s1, s1 &&& NO_COMMUNICATION = 0 → s1 &&& STATUS1_FAULT = 0 →
      is_on_from_flags s1 0x00010000 = true) := by
  refine ⟨by decide, fun _ => rfl, ?_⟩
  intro s1 h1 h2
  simp [is_on_from_flags, has_error_conditions, is_charging_active, h1, h2,
    BLOCKED, OCCUPIED, STATUS2_FAULT]
  decide

/-- Witness for claim C4: a channel with clean status1 and the OCCUPIED
bit reports charging. -/
theorem c4_witness : is_on_from_flags 0 0x00010000 = true :=
  c4_status_split_and_charging.2.2 0 (by decide) (by decide)

/-- Counterexample to claim C5 as stated: a de-authenticated client that
still stores a stale session token receives a 302 with an empty cookie
jar and no redirect; no token is discoverable in the jar at either
stage, yet `authenticate` returns true, because the final check reads
the stored `_phpsessid` field rather than a token found in this
exchange. -/
theorem c5_counterexample :
    (authenticate sStale wNoCookie).1 = true ∧ wNoCookie.postStatus = 302 ∧
      tokenDiscoverable wNoCookie = false := by decide

/-- Claim C5 (amended): provided the stored session token is falsy when
the attempt begins (as on a freshly constructed client) and the call is
not short-circuited by the backoff guard, `authenticate` returns true
exactly when the login POST answers 302 and a session token is
discoverable in the cookie jar, either directly after the POST or after
the manual redirect GET. -/
theorem c5_authenticate_success_iff (s : ClientState) (w : LoginWorld)
    (hp : pyTruthyStr s.phpsessid = false)
    (hb : s.is_authenticated = true → 30 ≤ w.now - s.last_auth_attempt) :
    ((authenticate s w).1 = true ↔
      (w.postStatus = 302 ∧ tokenDiscoverable w = true)) := by
  have hguard : (s.is_authenticated && decide (w.now - s.last_auth_attempt < 30)) = false := by
    by_cases ha : s.is_authenticated = true
    · have := hb ha
      simp [ha, Nat.not_lt.mpr this]
    · simp [Bool.eq_false_iff.mpr ha]
  have e1 : pyTruthyStr (scanCookies { s with last_auth_attempt := w.now } w.jarAfterPost).phpsessid
      = pyTruthyStr (lastCookie "PHPSESSID" w.jarAfterPost) := by
    rw [scanCookies_phpsessid]
    exact pyTruthyStr_or _ _ hp
  unfold authenticate
  rw [hguard]
  simp only [Bool.false_eq_true, if_false]
  by_cases h302 : w.postStatus = 302
  · have hb302 : (w.postStatus == 302) = true := by simp [h302]
    rw [if_pos hb302]
    by_cases htr : pyTruthyStr (lastCookie "PHPSESSID" w.jarAfterPost) = true
    · simp [e1, htr, tokenDiscoverable, h302]
    · have htr' : pyTruthyStr (lastCookie "PHPSESSID" w.jarAfterPost) = false :=
        Bool.eq_false_iff.mpr htr
      have e2 : pyTruthyStr (scanCookies (scanCookies { s with last_auth_attempt := w.now } w.jarAfterPost) w.jarAfterRedirect).phpsessid
          = pyTruthyStr (lastCookie "PHPSESSID" w.jarAfterRedirect) := by
        rw [scanCookies_phpsessid]
        apply pyTruthyStr_or
        rw [scanCookies_phpsessid, pyTruthyStr_or _ _ hp]
        exact htr'
      rcases hloc : w.location with _ | loc
      · simp [e1, htr', tokenDiscoverable, hloc]
      · rcases hr2 : pyTruthyStr (lastCookie "PHPSESSID" w.jarAfterRedirect) with _ | _
        · simp [e1, e2, htr', hr2, tokenDiscoverable, hloc]
        · simp [e1, e2, htr', hr2, tokenDiscoverable, hloc, h302]
  · have hb302 : (w.postStatus == 302) = false := by simp [h302]
    rw [if_neg (by simp [hb302])]
    simp [h302]

/-- Witness for claim C5: a fresh client under a login exchange that
delivers the cookie after the POST authenticates successfully. -/
theorem c5_witness : (authenticate sFresh wGood).1 = true := by
  have h := c5_authenticate_success_iff sFresh wGood rfl
    (by intro hx; exact absurd hx (by decide))
  exact h.mpr ⟨rfl, by decide⟩

/-- Counterexample to claim C6 as stated: an HTTP 200 response whose
body is structurally JSON but whose content type is text/plain is not
parsed; the engine fails with the unexpected-content-type error, so the
content-type header is not irrelevant. -/
theorem c6_counterexample :
    (make_ajax_request envPlain "p" 0 sAuth 0 0).result =
        Except.error "Unexpected content type: text/plain" ∧
      (envPlain.resps 0).status = 200 ∧ looksJson (envPlain.resps 0).body = true ∧
      envPlain.jsonLoads (envPlain.resps 0).body = Except.ok 42 :=
  ⟨rfl, rfl, rfl, rfl⟩

/-- Claim C6 (amended): an HTTP 200 response whose content type contains
application/json or text/html and whose body, stripped of surrounding
whitespace, starts with a bracket or brace is parsed as JSON and the
parsed value is returned; other content types are a terminal error even
for JSON-shaped bodies. -/
theorem c6_json_body_parsed {J : Type} (env : Env J) (payload : String)
    (s : ClientState) (ai li : Nat) (v : J)
    (hs : s.is_authenticated = true)
    (h200 : (env.resps ai).status = 200)
    (hct : contentTypeOk (env.resps ai).contentType = true)
    (hjs : looksJson (env.resps ai).body = true)
    (hld : env.jsonLoads (env.resps ai).body = Except.ok v) :
    (make_ajax_request env payload 0 s ai li).result = Except.ok v := by
  show (make_ajax_request_aux env payload (1 + 1) s ai li).result = Except.ok v
  rw [make_ajax_request_aux]
  simp [hs, h200, hct, hjs, hld]

/-- Witness for claim C6: a well-formed JSON response is parsed and its
value returned. -/
theorem c6_witness : (make_ajax_request envJson "p" 0 sAuth 0 0).result = Except.ok 7 :=
  c6_json_body_parsed envJson "p" sAuth 0 0 7 rfl rfl (by decide) (by decide) rfl

/-- Claim C7: while the client is authenticated and fewer than 30
seconds have elapsed since the last authentication attempt, a call to
`authenticate` returns true, performs zero network calls and leaves the
whole session state unchanged. -/
theorem c7_backoff_short_circuit (s : ClientState) (w : LoginWorld)
    (h1 : s.is_authenticated = true) (h2 : w.now - s.last_auth_attempt < 30) :
    authenticate s w = (true, s, 0) := by
  simp [authenticate, h1, h2]

/-- Witness for claim C7: an authenticated client ten seconds after its
last attempt is untouched by a further `authenticate` call. -/
theorem c7_witness : authenticate sAuth wIdle = (true, sAuth, 0) :=
  c7_backoff_short_circuit sAuth wIdle rfl (by decide)

/-- Claim C8: the fleet listing is called only while the cached spot
list is empty (a cycle starting non-empty keeps the list verbatim and
issues no fleet request, so the identifiers stay the stable snapshot
keys for the lifetime of the process); a cycle starting empty issues it
exactly once; and a fleet response that is not a non-empty list whose
first element is a non-empty list yields zero spots and an empty
snapshot without failing the cycle. -/
theorem c8_discovery_once :
    (∀ (cs : List PVal) (prev : Option Snapshot) (env : FetchEnv), cs ≠ [] →
      (async_update_data cs prev env).spots = cs ∧
        Req.fleet ∉ (async_update_data cs prev env).reqs) ∧
    (∀ (prev : Option Snapshot) (env : FetchEnv),
      ((async_update_data [] prev env).reqs).count Req.fleet = 1) ∧
    (∀ (prev : Option Snapshot) (env : FetchEnv) (resp : PVal),
      env.get_charge_spots = Except.ok resp → fleetShapeOk resp = false →
        (async_update_data [] prev env).result = Except.ok [] ∧
          (async_update_data [] prev env).spots = []) ∧
    (∀ (envs : List FetchEnv) (st : CoordState), st.charge_spots ≠ [] →
      (runCycles st envs).1.charge_spots = st.charge_spots ∧
        Req.fleet ∉ (runCycles st envs).2) :=
  ⟨update_nonempty_spots, update_empty_fleet_once, update_bad_shape,
    fun envs => runCycles_no_fleet envs⟩

/-- Witness for claim C8: a cycle over an already-discovered single-spot
list keeps the list and issues no fleet request. -/
theorem c8_witness :
    (async_update_data [spotA] Option.none envFail).spots = [spotA] ∧
      Req.fleet ∉ (async_update_data [spotA] Option.none envFail).reqs :=
  c8_discovery_once.1 [spotA] Option.none envFail (by simp)

/-- Claim C9: a spot record whose `IDX` is missing or falsy is silently
skipped by the per-spot loop: no overview, usage or log request is
issued for it and it contributes no snapshot entry; in a concrete cycle
containing such a spot and a normal one, only the normal spot appears in
the snapshot and in the request trace. -/
theorem c9_falsy_idx_skipped :
    (∀ (prev : Option Snapshot) (env : FetchEnv) (kvs : List (String × PVal)),
      pyTruthy ((dictGet kvs "IDX").getD PVal.pnone) = false →
        processSpot prev env (PVal.pdict kvs) = (Except.ok Option.none, [])) ∧
    (async_update_data [spotNoIdx, spotA] (Option.some []) envOk).result =
        Except.ok [(PVal.pstr "5", entryA)] ∧
    (async_update_data [spotNoIdx, spotA] (Option.some []) envOk).reqs =
        [Req.overview "5", Req.usage "5", Req.log "5" "1"] := by
  refine ⟨?_, rfl, rfl⟩
  intro prev env kvs h
  simp [processSpot, h]

/-- Witness for claim C9: the spot record with an empty-string `IDX` is
skipped with no requests and no entry. -/
theorem c9_witness :
    processSpot Option.none envFail (PVal.pdict [("IDX", PVal.pstr ""), ("NAME", PVal.pstr "Ghost")]) =
      (Except.ok Option.none, []) :=
  c9_falsy_idx_skipped.1 Option.none envFail
    [("IDX", PVal.pstr ""), ("NAME", PVal.pstr "Ghost")] (by decide)

/-- Claim C10: `_parse_status_flags` is total on every nonnegative
integer, because the decimal digit string consists of valid hexadecimal
digits and the zero-padding guarantees both halves are non-empty; and
status2 is not truncated to 32 bits: for the 20-digit input
99999999999999999999 the second half is parsed from the 12 digits past
the first 8 and exceeds 2 to the 32. -/
theorem c10_parse_total :
    (∀ n : Nat, (parse_status_flags n).isSome = true) ∧
    (decDigits 99999999999999999999).length = 20 ∧
    parse_status_flags 99999999999999999999 =
      Option.some (0x99999999, 0x999999999999) ∧
    2 ^ 32 < 0x999999999999 := by
  refine ⟨?_, by decide, by decide, by decide⟩
  intro n
  have hd := decDigits_lt n
  have hne := decDigits_ne_nil n
  have hlen : 16 ≤ (zfill 16 (decDigits n)).length := by
    rw [zfill, List.length_append, List.length_replicate]
    omega
  have hall : ∀ d ∈ zfill 16 (decDigits n), d < 10 := by
    intro d hmem
    rcases List.mem_append.mp hmem with hm | hm
    · rw [List.eq_of_mem_replicate hm]
      norm_num
    · exact hd d hm
  have h1 : (zfill 16 (decDigits n)).take 8 ≠ [] := by
    have hl : ((zfill 16 (decDigits n)).take 8).length = 8 := by
      rw [List.length_take]
      omega
    intro hc
    rw [hc] at hl
    simp at hl
  have h2 : (zfill 16 (decDigits n)).drop 8 ≠ [] := by
    have hl : ((zfill 16 (decDigits n)).drop 8).length = (zfill 16 (decDigits n)).length - 8 :=
      List.length_drop 8 _
    intro hc
    rw [hc] at hl
    simp at hl
    omega
  have ha1 : ∀ d ∈ (zfill 16 (decDigits n)).take 8, d < 10 :=
    fun d hmem => hall d (List.take_subset _ _ hmem)
  have ha2 : ∀ d ∈ (zfill 16 (decDigits n)).drop 8, d < 10 :=
    fun d hmem => hall d (List.drop_subset _ _ hmem)
  have o1 := int16_isSome _ h1 ha1
  have o2 := int16_isSome _ h2 ha2
  rw [parse_status_flags]
  rcases hx1 : int16 ((zfill 16 (decDigits n)).take 8) with _ | v1
  · rw [hx1] at o1
    exact absurd o1 (by decide)
  · rcases hx2 : int16 ((zfill 16 (decDigits n)).drop 8) with _ | v2
    · rw [hx2] at o2
      exact absurd o2 (by decide)
    · simp [hx1, hx2]

end EvcNet
